import Mathlib

/-!
Shallow embedding of `src/mongo/util/version.cpp`: the process-wide
version-information registry (`enable` / `instance`), the fallback provider,
the `isSameMajorVersion` comparator, the structured report
(`appendBuildInfo`), the log record (`logBuildInfo`), and the front-end
version-string helpers.

Modelling conventions:
- A C++ `VersionInfoInterface` implementation is modelled as a record of the
  values its virtual getters return (the getters are pure accessors).
- The global pointer `globalVersionInfo` is modelled as an
  `Option VersionInfoInterface` state threaded explicitly; a null pointer is
  `none`.
- C++ `int` is modelled as `Int` (no value in this file approaches the
  32-bit range, so overflow is irrelevant to every claim here).
- The `LOGV2_FATAL` + `fassertFailed` path (which never returns) is modelled
  as a distinguished `InstanceResult.fatal` outcome carrying the log id, the
  diagnostic message and the fassert code.
- Conditional compilation (`_WIN32`, `MONGO_CONFIG_SSL`,
  `MONGO_CONFIG_SSL_PROVIDER`) and external build constants
  (`SSLeay_version`, `OPENSSL_VERSION_TEXT`, `sizeof(void*)`, `kDebugBuild`,
  `BSONObjMaxUserSize`) are modelled as an explicit `BuildConfig` parameter.
  The `#error "Unknown SSL Provider"` directive is reflected by the
  `SSLProviderKind` inductive having exactly the three accepted backends.
-/

/-- One entry of `buildInfo()`: a `(key, value, inBuildInfo)` triple, as used
by `appendBuildInfo` (`e.key`, `e.value`, `e.inBuildInfo`) and `logBuildInfo`
(`bi.value.empty()`). -/
structure BuildInfoField where
  key : String
  value : String
  inBuildInfo : Bool
deriving DecidableEq, Repr

/-- A concrete version-info provider: the tuple of values returned by the
virtual getters of a `VersionInfoInterface` implementation. -/
structure VersionInfoInterface where
  majorVersion : Int
  minorVersion : Int
  patchVersion : Int
  extraVersion : Int
  version : String
  gitVersion : String
  modules : List String
  allocator : String
  jsEngine : String
  targetMinOS : String
  buildInfo : List BuildInfoField
deriving DecidableEq, Repr

/-- The `FallbackVersionInfo` singleton of the anonymous namespace: every
getter returns a fixed sentinel. -/
def fallbackVersionInfo : VersionInfoInterface :=
  { majorVersion := 0
    minorVersion := 0
    patchVersion := 0
    extraVersion := 0
    version := "unknown"
    gitVersion := "none"
    modules := ["unknown"]
    allocator := "unknown"
    jsEngine := "unknown"
    targetMinOS := "unknown"
    buildInfo := [] }

/-- The policy argument of `VersionInfoInterface::instance`. -/
inductive NotEnabledAction where
  | kFallback
  | kFatal
deriving DecidableEq, Repr

/-- The outcome of a call to `VersionInfoInterface::instance`: either a
provider reference is returned, or (fatal path) the process logs the
diagnostic and aborts via `fassertFailed` without returning. -/
inductive InstanceResult where
  | found (p : VersionInfoInterface)
  | fatal (logId : Nat) (msg : String) (fassertCode : Nat)
deriving DecidableEq, Repr

/-- The state of the registry: the `globalVersionInfo` pointer
(`none` = null, the initial value). -/
abbrev RegistryState := Option VersionInfoInterface

/-- `VersionInfoInterface::enable(handler)`: overwrites `globalVersionInfo`
with `handler` (the pointer argument is nullable, hence `Option`). -/
def enable (handler : Option VersionInfoInterface) (_ : RegistryState) :
    RegistryState :=
  handler

/-- `VersionInfoInterface::instance(action)`: returns `*globalVersionInfo`
when the pointer is set; otherwise returns the shared fallback instance
under `kFallback`, and under any other action logs fatal id 23405 and calls
`fassertFailed(40278)`. -/
def instanceImpl (s : RegistryState) (action : NotEnabledAction) :
    InstanceResult :=
  match s with
  | some p => .found p
  | none =>
    if action = NotEnabledAction.kFallback then
      .found fallbackVersionInfo
    else
      .fatal 23405
        "Terminating because valid version info has not been configured" 40278

/-- An operation against the registry: an `enable` call (with a possibly null
handler) or an `instance` call. -/
inductive Op where
  | enableCall (handler : Option VersionInfoInterface)
  | instCall (action : NotEnabledAction)
deriving DecidableEq, Repr

/-- Whether an operation is an `instance` call (reads the registry without
mutating it). -/
def Op.isInstCall : Op → Bool
  | .instCall _ => true
  | .enableCall _ => false

/-- Whether an operation avoids passing a null handler to `enable`. -/
def Op.nonNullEnable : Op → Bool
  | .enableCall none => false
  | _ => true

/-- Effect of one operation on the registry state: `enable` stores its
argument; `instance` only reads the state. -/
def stepOp (s : RegistryState) (o : Op) : RegistryState :=
  match o with
  | .enableCall h => enable h s
  | .instCall _ => s

/-- Registry state after a sequence of operations. -/
def runOps (s : RegistryState) (ops : List Op) : RegistryState :=
  ops.foldl stepOp s

/-- Numeric value of a digit run, as `pcrecpp` assigns a `(\d+)` capture to
an `int` argument. -/
def digitsVal (ds : List Char) : Nat :=
  ds.foldl (fun n c => 10 * n + (c.toNat - '0'.toNat)) 0

/-- The capture behaviour of `pcrecpp::RE("^(\d+)\.(\d+)\.").PartialMatch`:
the string must begin with a digit run, a dot, a digit run, and a dot;
on success the two digit runs are the captures.  (`\d+` is greedy and is
followed by the non-digit `.`, so maximal munch is exact.) -/
def parseMajorMinor (s : List Char) : Option (Nat × Nat) :=
  let ds1 := s.takeWhile Char.isDigit
  let rest1 := s.dropWhile Char.isDigit
  if ds1.isEmpty then none
  else
    match rest1 with
    | '.' :: rest2 =>
      let ds2 := rest2.takeWhile Char.isDigit
      let rest3 := rest2.dropWhile Char.isDigit
      if ds2.isEmpty then none
      else
        match rest3 with
        | '.' :: _ => some (digitsVal ds1, digitsVal ds2)
        | _ => none
    | _ => none

/-- `VersionInfoInterface::isSameMajorVersion`: `major` and `minor` start at
`-1`, are overwritten by a successful `PartialMatch`, and are then compared
against the provider's own major/minor. -/
def isSameMajorVersion (p : VersionInfoInterface) (otherVersion : String) :
    Bool :=
  let mm : Int × Int :=
    match parseMajorMinor otherVersion.toList with
    | none => (-1, -1)
    | some (a, b) => ((a : Int), (b : Int))
  if mm.1 == -1 || mm.2 == -1 then false
  else mm.1 == p.majorVersion && mm.2 == p.minorVersion

/-- `VersionInfoInterface::makeVersionString`: `binaryName << " v" << version()`. -/
def makeVersionString (p : VersionInfoInterface) (binaryName : String) :
    String :=
  binaryName ++ " v" ++ p.version

/-- The TLS backends accepted at build time; any other
`MONGO_CONFIG_SSL_PROVIDER` hits `#error "Unknown SSL Provider"`. -/
inductive SSLProviderKind where
  | openssl
  | windows
  | apple
deriving DecidableEq, Repr

/-- The compile-time/platform facts `version.cpp` reads besides the provider:
`_WIN32`, the SSL configuration (`none` = `MONGO_CONFIG_SSL` undefined), the
runtime `SSLeay_version(SSLEAY_VERSION)` string, the `OPENSSL_VERSION_TEXT`
constant, `sizeof(void*) * 8`, `kDebugBuild`, and `BSONObjMaxUserSize`. -/
structure BuildConfig where
  win32 : Bool
  ssl : Option SSLProviderKind
  ssleayVersion : String
  opensslVersionText : String
  bits : Int
  debugBuild : Bool
  maxBsonObjectSize : Int
deriving DecidableEq, Repr

/-- `VersionInfoInterface::openSSLVersion(prefix, suffix)`: the empty string
unless the build uses the OpenSSL backend, else
`prefix + SSLeay_version(SSLEAY_VERSION) + suffix`. -/
def openSSLVersion (cfg : BuildConfig) (pre suf : String) : String :=
  match cfg.ssl with
  | some .openssl => pre ++ cfg.ssleayVersion ++ suf
  | _ => ""

/-- A BSON value as far as this file's document shapes need. -/
inductive BSONValue where
  | str (s : String)
  | int (n : Int)
  | bool (b : Bool)
  | arr (xs : List BSONValue)
  | doc (fields : List (String × BSONValue))
deriving Repr

/-- The `openssl` subdocument of `appendBuildInfo`, one case per
`MONGO_CONFIG_SSL_PROVIDER` branch (the Windows and Apple branches append
only `running`). -/
def opensslDoc (cfg : BuildConfig) : List (String × BSONValue) :=
  match cfg.ssl with
  | some .openssl =>
    [("running", .str (openSSLVersion cfg "" "")),
     ("compiled", .str cfg.opensslVersionText)]
  | some .windows => [("running", .str "Windows SChannel")]
  | some .apple => [("running", .str "Apple Secure Transport")]
  | none =>
    [("running", .str "disabled"), ("compiled", .str "disabled")]

/-- `VersionInfoInterface::appendBuildInfo`: the ordered fields appended to
the result builder (`targetMinOS` only under `_WIN32`; the
`buildEnvironment` subdocument appends `key -> value` for each `buildInfo`
entry with `inBuildInfo` set). -/
def appendBuildInfo (cfg : BuildConfig) (p : VersionInfoInterface) :
    List (String × BSONValue) :=
  [("version", .str p.version), ("gitVersion", .str p.gitVersion)]
    ++ (if cfg.win32 then [("targetMinOS", BSONValue.str p.targetMinOS)]
        else [])
    ++ [("modules", .arr (p.modules.map BSONValue.str)),
        ("allocator", .str p.allocator),
        ("javascriptEngine", .str p.jsEngine),
        ("sysInfo", .str "deprecated"),
        ("versionArray",
          .arr [.int p.majorVersion, .int p.minorVersion,
                .int p.patchVersion, .int p.extraVersion]),
        ("openssl", .doc (opensslDoc cfg)),
        ("buildEnvironment",
          .doc ((p.buildInfo.filter (fun e => e.inBuildInfo)).map
            (fun e => (e.key, BSONValue.str e.value)))),
        ("bits", .int cfg.bits),
        ("debug", .bool cfg.debugBuild),
        ("maxBsonObjectSize", .int cfg.maxBsonObjectSize)]

/-- An attribute value of the `logBuildInfo` log record. -/
inductive LogAttrValue where
  | str (s : String)
  | seqStr (xs : List String)
  | seqDoc (xs : List (List (String × String)))
deriving DecidableEq, Repr

/-- `VersionInfoInterface::logBuildInfo`: the ordered attributes of log
record 23403 "Build Info".  `openSSLVersion` is added only under the OpenSSL
backend; `environment` is the filter (`bi.inBuildInfo && !bi.value.empty()`)
then transform (`{key: value}` single-field document) pipeline over
`buildInfo()`. -/
def logBuildInfo (cfg : BuildConfig) (p : VersionInfoInterface) :
    List (String × LogAttrValue) :=
  [("version", .str p.version), ("gitVersion", .str p.gitVersion)]
    ++ (if cfg.ssl = some SSLProviderKind.openssl then
          [("openSSLVersion", LogAttrValue.str (openSSLVersion cfg "" ""))]
        else [])
    ++ [("allocator", .str p.allocator),
        ("modules", .seqStr p.modules),
        ("environment",
          .seqDoc
            ((p.buildInfo.filter
                (fun bi => bi.inBuildInfo && !bi.value.isEmpty)).map
              (fun bi => [(bi.key, bi.value)])))]

/-- `mongoShellVersion`: `"MongoDB shell version v" << provider.version()`. -/
def mongoShellVersion (provider : VersionInfoInterface) : String :=
  "MongoDB shell version v" ++ provider.version

/-- `mongosVersion`: `"mongos version v" << provider.version()`. -/
def mongosVersion (provider : VersionInfoInterface) : String :=
  "mongos version v" ++ provider.version

/-- `mongodVersion`: `"db version v" << provider.version()`. -/
def mongodVersion (provider : VersionInfoInterface) : String :=
  "db version v" ++ provider.version

/-- A concrete provider used by witnesses and counterexamples. -/
def sampleProvider : VersionInfoInterface :=
  { majorVersion := 4
    minorVersion := 2
    patchVersion := 1
    extraVersion := 0
    version := "4.2.1"
    gitVersion := "a4b447f77bd75c19f3b662ca6b805b100e606568"
    modules := ["enterprise"]
    allocator := "tcmalloc"
    jsEngine := "mozjs"
    targetMinOS := "Windows 7/Windows Server 2008 R2"
    buildInfo :=
      [{ key := "distmod", value := "rhel80", inBuildInfo := true },
       { key := "distarch", value := "", inBuildInfo := true },
       { key := "cppdefines", value := "NDEBUG", inBuildInfo := false }] }

/-- A second concrete provider sharing only `version` with `sampleProvider`. -/
def sampleProvider2 : VersionInfoInterface :=
  { majorVersion := 7
    minorVersion := 9
    patchVersion := 3
    extraVersion := 5
    version := "4.2.1"
    gitVersion := "none"
    modules := []
    allocator := "system"
    jsEngine := "none"
    targetMinOS := "unknown"
    buildInfo := [] }

/-- A concrete build configuration using the Windows SChannel TLS backend. -/
def winSChannelConfig : BuildConfig :=
  { win32 := true
    ssl := some SSLProviderKind.windows
    ssleayVersion := ""
    opensslVersionText := ""
    bits := 64
    debugBuild := false
    maxBsonObjectSize := 16777216 }

/-! ## Helper lemmas -/

/-- A sequence of pure `instance` calls leaves the registry state unchanged. -/
theorem runOps_eq_of_instOnly (s : RegistryState) (ops : List Op)
    (h : ∀ o ∈ ops, Op.isInstCall o = true) : runOps s ops = s := by
  induction ops generalizing s with
  | nil => rfl
  | cons o rest ih =>
    have ho := h o (List.mem_cons_self o rest)
    have hrest : ∀ o' ∈ rest, Op.isInstCall o' = true :=
      fun o' m => h o' (List.mem_cons_of_mem o m)
    cases o with
    | enableCall x => simp [Op.isInstCall] at ho
    | instCall a =>
      show runOps (stepOp s (Op.instCall a)) rest = s
      simpa [stepOp] using ih s hrest

/-- If the registry is enabled and no subsequent operation passes a null
handler to `enable`, the registry stays enabled. -/
theorem runOps_isSome_of_nonNullEnable (s : RegistryState) (ops : List Op)
    (hs : s.isSome = true) (h : ∀ o ∈ ops, Op.nonNullEnable o = true) :
    (runOps s ops).isSome = true := by
  induction ops generalizing s with
  | nil => exact hs
  | cons o rest ih =>
    have ho := h o (List.mem_cons_self o rest)
    have hrest : ∀ o' ∈ rest, Op.nonNullEnable o' = true :=
      fun o' m => h o' (List.mem_cons_of_mem o m)
    show (runOps (stepOp s o) rest).isSome = true
    apply ih _ _ hrest
    cases o with
    | enableCall x =>
      cases x with
      | none => simp [Op.nonNullEnable] at ho
      | some q => simp [stepOp, enable]
    | instCall a => simpa [stepOp] using hs

/-! ## Claim theorems -/

/-- Claim C2: after `enable` is called with a (non-null) provider `P`, every
subsequent `instance` call, with either policy, returns exactly `P`, as long
as no further `enable` call intervenes. -/
theorem C2_enable_then_instance_found (s : RegistryState)
    (p : VersionInfoInterface) (ops : List Op) (a : NotEnabledAction)
    (h : ∀ o ∈ ops, Op.isInstCall o = true) :
    instanceImpl (runOps (enable (some p) s) ops) a = InstanceResult.found p := by
  rw [runOps_eq_of_instOnly _ ops h]
  rfl

theorem C2_enable_then_instance_found_witness :
    instanceImpl
      (runOps (enable (some sampleProvider) none)
        [Op.instCall NotEnabledAction.kFallback,
         Op.instCall NotEnabledAction.kFatal])
      NotEnabledAction.kFallback = InstanceResult.found sampleProvider :=
  C2_enable_then_instance_found none sampleProvider
    [Op.instCall NotEnabledAction.kFallback,
     Op.instCall NotEnabledAction.kFatal]
    NotEnabledAction.kFallback (by decide)

/-- Claim C3: before any `enable` call (i.e. after any sequence of pure
`instance` calls from the initial state), `instance(kFallback)` returns the
single shared fallback provider, whose fields are the fixed sentinels. -/
theorem C3_fallback_sentinels (ops : List Op)
    (h : ∀ o ∈ ops, Op.isInstCall o = true) :
    instanceImpl (runOps none ops) NotEnabledAction.kFallback
        = InstanceResult.found fallbackVersionInfo
      ∧ fallbackVersionInfo.majorVersion = 0
      ∧ fallbackVersionInfo.minorVersion = 0
      ∧ fallbackVersionInfo.patchVersion = 0
      ∧ fallbackVersionInfo.extraVersion = 0
      ∧ fallbackVersionInfo.version = "unknown"
      ∧ fallbackVersionInfo.gitVersion = "none"
      ∧ fallbackVersionInfo.modules = ["unknown"]
      ∧ fallbackVersionInfo.allocator = "unknown"
      ∧ fallbackVersionInfo.jsEngine = "unknown"
      ∧ fallbackVersionInfo.targetMinOS = "unknown"
      ∧ fallbackVersionInfo.buildInfo = [] := by
  rw [runOps_eq_of_instOnly _ ops h]
  exact ⟨rfl, rfl, rfl, rfl, rfl, rfl, rfl, rfl, rfl, rfl, rfl, rfl⟩

theorem C3_fallback_sentinels_witness :
    instanceImpl (runOps none [Op.instCall NotEnabledAction.kFallback])
        NotEnabledAction.kFallback
        = InstanceResult.found fallbackVersionInfo
      ∧ fallbackVersionInfo.majorVersion = 0
      ∧ fallbackVersionInfo.minorVersion = 0
      ∧ fallbackVersionInfo.patchVersion = 0
      ∧ fallbackVersionInfo.extraVersion = 0
      ∧ fallbackVersionInfo.version = "unknown"
      ∧ fallbackVersionInfo.gitVersion = "none"
      ∧ fallbackVersionInfo.modules = ["unknown"]
      ∧ fallbackVersionInfo.allocator = "unknown"
      ∧ fallbackVersionInfo.jsEngine = "unknown"
      ∧ fallbackVersionInfo.targetMinOS = "unknown"
      ∧ fallbackVersionInfo.buildInfo = [] :=
  C3_fallback_sentinels [Op.instCall NotEnabledAction.kFallback] (by decide)

/-- Claim C8: with no provider registered, `instance(kFatal)` takes the
fatal path: it logs diagnostic 23405 and aborts via `fassertFailed(40278)`,
never returning a provider to the caller. -/
theorem C8_fatal_never_returns :
    instanceImpl none NotEnabledAction.kFatal
        = InstanceResult.fatal 23405
            "Terminating because valid version info has not been configured"
            40278
      ∧ ∀ p, instanceImpl none NotEnabledAction.kFatal
          ≠ InstanceResult.found p :=
  ⟨rfl, fun p h => by simp [instanceImpl] at h⟩

/-- Claim C9 counterexample: `enable` takes a nullable pointer, and passing a
null handler after a successful registration resets `globalVersionInfo` to
null, so a later `instance` call does take the not-configured branch — here
the fatal one — contradicting the claim that after any `enable` call the
not-configured branch is unreachable. -/
theorem C9_counterexample :
    runOps none
        [Op.enableCall (some sampleProvider), Op.enableCall none] = none
      ∧ instanceImpl
          (runOps none
            [Op.enableCall (some sampleProvider), Op.enableCall none])
          NotEnabledAction.kFatal
        = InstanceResult.fatal 23405
            "Terminating because valid version info has not been configured"
            40278
      ∧ instanceImpl
          (runOps none
            [Op.enableCall (some sampleProvider), Op.enableCall none])
          NotEnabledAction.kFallback
        = InstanceResult.found fallbackVersionInfo :=
  ⟨rfl, rfl, rfl⟩

/-- Claim C9 (amended): once `enable` has been called with a non-null
provider, `instance` never takes the not-configured branch — provided every
subsequent `enable` call (if any) also passes a non-null handler; `enable`
with a null handler is the one operation that resets the registry to the
not-enabled state. -/
theorem C9_amended_no_unregister (s : RegistryState)
    (p : VersionInfoInterface) (ops : List Op) (a : NotEnabledAction)
    (h : ∀ o ∈ ops, Op.nonNullEnable o = true) :
    ∃ q, instanceImpl (runOps (enable (some p) s) ops) a
        = InstanceResult.found q := by
  have hs : (runOps (enable (some p) s) ops).isSome = true :=
    runOps_isSome_of_nonNullEnable (enable (some p) s) ops rfl h
  rcases Option.isSome_iff_exists.mp hs with ⟨q, hq⟩
  exact ⟨q, by rw [hq]; rfl⟩

theorem C9_amended_no_unregister_witness :
    ∃ q, instanceImpl
        (runOps (enable (some sampleProvider) none)
          [Op.instCall NotEnabledAction.kFatal,
           Op.enableCall (some sampleProvider2),
           Op.instCall NotEnabledAction.kFallback])
        NotEnabledAction.kFatal = InstanceResult.found q :=
  C9_amended_no_unregister none sampleProvider
    [Op.instCall NotEnabledAction.kFatal,
     Op.enableCall (some sampleProvider2),
     Op.instCall NotEnabledAction.kFallback]
    NotEnabledAction.kFatal (by decide)

/-- Claim C4: whenever the pattern `^(\d+)\.(\d+)\.` extracts a major and a
minor from the version string, `isSameMajorVersion` returns `true` iff the
extracted major equals the provider's `majorVersion` and the extracted minor
equals its `minorVersion`; the provider's `patchVersion` and `extraVersion`
have no influence. -/
theorem C4_isSameMajorVersion_parsed (p : VersionInfoInterface) (s : String)
    (maj mn : Nat) (h : parseMajorMinor s.toList = some (maj, mn)) :
    (isSameMajorVersion p s = true
        ↔ ((maj : Int) = p.majorVersion ∧ (mn : Int) = p.minorVersion))
      ∧ ∀ pa ex : Int,
          isSameMajorVersion
              { p with patchVersion := pa, extraVersion := ex } s
            = isSameMajorVersion p s := by
  have h1 : ((maj : Int) == -1) = false := by
    simp only [beq_eq_false_iff_ne, ne_eq]
    omega
  have h2 : ((mn : Int) == -1) = false := by
    simp only [beq_eq_false_iff_ne, ne_eq]
    omega
  have h' : parseMajorMinor s.data = some (maj, mn) := h
  constructor
  · simp [isSameMajorVersion, h', h1, h2, Bool.and_eq_true, beq_iff_eq]
  · intro pa ex
    simp [isSameMajorVersion, h']

theorem C4_isSameMajorVersion_parsed_witness :
    (isSameMajorVersion sampleProvider "4.2.1" = true
        ↔ (((4 : Nat) : Int) = sampleProvider.majorVersion
            ∧ ((2 : Nat) : Int) = sampleProvider.minorVersion))
      ∧ ∀ pa ex : Int,
          isSameMajorVersion
              { sampleProvider with patchVersion := pa, extraVersion := ex }
              "4.2.1"
            = isSameMajorVersion sampleProvider "4.2.1" :=
  C4_isSameMajorVersion_parsed sampleProvider "4.2.1" 4 2 (by decide)

/-- Claim C5: when the version string does not begin with the pattern
`digits '.' digits '.'` (the capture fails), `isSameMajorVersion` returns
`false`; being a total function, it signals no error. -/
theorem C5_isSameMajorVersion_unparseable (p : VersionInfoInterface)
    (s : String) (h : parseMajorMinor s.toList = none) :
    isSameMajorVersion p s = false := by
  have h' : parseMajorMinor s.data = none := h
  simp [isSameMajorVersion, h']

theorem C5_isSameMajorVersion_unparseable_witness :
    parseMajorMinor "4.2".toList = none
      ∧ isSameMajorVersion fallbackVersionInfo "4.2" = false :=
  ⟨by decide, C5_isSameMajorVersion_unparseable fallbackVersionInfo "4.2"
    (by decide)⟩

/-- Claim C1: for every provider and build configuration, the top-level keys
of the structured report are exactly `version`, `gitVersion`,
(`targetMinOS`, present exactly under a Windows-family build target),
`modules`, `allocator`, `javascriptEngine`, `sysInfo`, `versionArray`,
`openssl`, `buildEnvironment`, `bits`, `debug`, `maxBsonObjectSize`, in that
order, and `sysInfo` is the constant string `"deprecated"`. -/
theorem C1_report_keys (cfg : BuildConfig) (p : VersionInfoInterface) :
    (appendBuildInfo cfg p).map Prod.fst
        = ["version", "gitVersion"]
            ++ (if cfg.win32 then ["targetMinOS"] else [])
            ++ ["modules", "allocator", "javascriptEngine", "sysInfo",
                "versionArray", "openssl", "buildEnvironment", "bits",
                "debug", "maxBsonObjectSize"]
      ∧ (appendBuildInfo cfg p).lookup "sysInfo"
        = some (BSONValue.str "deprecated") := by
  rcases cfg with ⟨win, ssl, sv, ot, bits, db, mx⟩
  cases win <;> exact ⟨rfl, rfl⟩

/-- Claim C6: the report's `buildEnvironment` subdocument holds exactly the
`buildInfo` entries with `inBuildInfo` set, as `key -> value`, in original
order and regardless of value emptiness, while the log record's
`environment` holds exactly those same entries further restricted to
non-empty values, in original order — the two outputs differ precisely by
the empty-value filter. -/
theorem C6_environment_filters (cfg : BuildConfig)
    (p : VersionInfoInterface) :
    (appendBuildInfo cfg p).lookup "buildEnvironment"
        = some (BSONValue.doc
            ((p.buildInfo.filter (fun e => e.inBuildInfo)).map
              (fun e => (e.key, BSONValue.str e.value))))
      ∧ (logBuildInfo cfg p).lookup "environment"
        = some (LogAttrValue.seqDoc
            (((p.buildInfo.filter (fun e => e.inBuildInfo)).filter
                (fun e => !e.value.isEmpty)).map
              (fun e => [(e.key, e.value)]))) := by
  have hfil :
      (p.buildInfo.filter (fun e => e.inBuildInfo)).filter
          (fun e => !e.value.isEmpty)
        = p.buildInfo.filter (fun bi => bi.inBuildInfo && !bi.value.isEmpty) := by
    rw [List.filter_filter]
    congr 1
    funext a
    exact Bool.and_comm _ _
  rcases cfg with ⟨win, ssl, sv, ot, bits, db, mx⟩
  constructor
  · cases win <;> rfl
  · rw [hfil]
    cases ssl with
    | none => rfl
    | some k => cases k <;> rfl

/-- Claim C7 counterexample: under the Windows SChannel TLS backend the
`openssl` subdocument of the report contains only a `running` key — there is
no `compiled` key, contradicting the claim that both keys are present for
every supported TLS-backend configuration. -/
theorem C7_counterexample :
    (appendBuildInfo winSChannelConfig sampleProvider).lookup "openssl"
        = some (BSONValue.doc
            [("running", BSONValue.str "Windows SChannel")])
      ∧ (opensslDoc winSChannelConfig).lookup "compiled" = none :=
  ⟨rfl, rfl⟩

/-- Claim C7 (amended): the report's `openssl` subdocument always contains a
`running` key (the OpenSSL runtime description, the backend name for the
SChannel/Secure Transport backends, or `"disabled"`); a `compiled` key is
present exactly when the build disables SSL or uses the OpenSSL backend —
the Windows and Apple branches emit only `running`. -/
theorem C7_amended_openssl_doc (cfg : BuildConfig)
    (p : VersionInfoInterface) :
    (appendBuildInfo cfg p).lookup "openssl"
        = some (BSONValue.doc (opensslDoc cfg))
      ∧ ((opensslDoc cfg).lookup "running").isSome = true
      ∧ (((opensslDoc cfg).lookup "compiled").isSome = true
          ↔ (cfg.ssl = none ∨ cfg.ssl = some SSLProviderKind.openssl)) := by
  rcases cfg with ⟨win, ssl, sv, ot, bits, db, mx⟩
  refine ⟨?_, ?_, ?_⟩
  · cases win <;> rfl
  · cases ssl with
    | none => rfl
    | some k => cases k <;> rfl
  · cases ssl with
    | none => simp [opensslDoc, List.lookup]
    | some k => cases k <;> simp [opensslDoc, List.lookup]

/-- Claim C10: the three front-end helpers return exactly the fixed prefix
(`"MongoDB shell version v"`, `"mongos version v"`, `"db version v"`)
concatenated with the provider's `version` string, and depend on the
provider only through its `version` field. -/
theorem C10_frontend_helpers (p q : VersionInfoInterface)
    (h : p.version = q.version) :
    mongoShellVersion p = "MongoDB shell version v" ++ p.version
      ∧ mongosVersion p = "mongos version v" ++ p.version
      ∧ mongodVersion p = "db version v" ++ p.version
      ∧ mongoShellVersion p = mongoShellVersion q
      ∧ mongosVersion p = mongosVersion q
      ∧ mongodVersion p = mongodVersion q := by
  simp [mongoShellVersion, mongosVersion, mongodVersion, h]

theorem C10_frontend_helpers_witness :
    mongoShellVersion sampleProvider
        = "MongoDB shell version v" ++ sampleProvider.version
      ∧ mongosVersion sampleProvider
        = "mongos version v" ++ sampleProvider.version
      ∧ mongodVersion sampleProvider
        = "db version v" ++ sampleProvider.version
      ∧ mongoShellVersion sampleProvider = mongoShellVersion sampleProvider2
      ∧ mongosVersion sampleProvider = mongosVersion sampleProvider2
      ∧ mongodVersion sampleProvider = mongodVersion sampleProvider2 :=
  C10_frontend_helpers sampleProvider sampleProvider2 rfl
